import Mathlib

/-!
Verification of the native voice pipeline of `src-tauri/src/native_voice.rs`
and its `listen_and_transcribe` caller in `src-tauri/src/lib.rs`.

Modelling choices:
* `f32` values (audio samples, energies, the VAD sensitivity) are modelled as
  exact rationals; the square root inside the RMS energy computation lands in
  `ℝ`, so the energy itself is a real number.  All the in-range values named by
  the spec (`0.02`, `2.5`, `1280/32`, ...) are exactly representable, so the
  rational model agrees with the `f32` arithmetic of the source there.
* The shared cells of `NativeVoicePipeline` (the `Arc<Mutex<..>>` fields and
  atomics) together with the audio-loop-local counters of `run_audio_loop`
  (`voice_frame_count`, `last_wake_emission`, `silence_frame_count`,
  `has_detected_speech`, `recording_frame_count`) form one explicit state
  record `PipelineState`; locks never fail in the model.
* The cpal input callback (the closure built in `run_audio_loop`) becomes the
  state-transition function `audioCallback`; its `Instant`-based debounce clock
  is a natural number of elapsed seconds (the source truncates the elapsed
  `Duration` to whole seconds with `as_secs`), and the emitted
  `wake_word_detected` event is the `Bool` component of the result.
* `start_transcription` is a function of the pre-state, an oracle for the
  external Whisper decode, and the list of audio blocks the callback processes
  while the control thread sits in its polling wait loop.  The wait loop's exit
  (silence-detected flag or the 30 s wall-clock timeout) only decides when the
  control thread stops sleeping; the post-state depends on the blocks actually
  processed, which the model quantifies over.
* Comparisons against real-valued energies use classical decidability, so the
  audio-path definitions are `noncomputable`; every control-thread operation
  (`update_vad_settings`, `set_state`, `cancel_and_reset`, ...) is executable.
-/

/-- Voice pipeline state machine (`enum VoiceState` in `native_voice.rs`). -/
inductive VoiceState where
  | Idle
  | ListeningForWakeWord
  | Transcribing
  | Speaking
  deriving DecidableEq

/-- Constant `VOICE_FRAMES_REQUIRED` (native_voice.rs line 29). -/
def VOICE_FRAMES_REQUIRED : Nat := 10

/-- Constant `MAX_RECORDING_SECONDS` (native_voice.rs line 30). -/
def MAX_RECORDING_SECONDS : Nat := 30

/-- Constant `SKIP_FRAMES_AFTER_WAKE_WORD` (native_voice.rs line 31). -/
def SKIP_FRAMES_AFTER_WAKE_WORD : Nat := 15

/-- Constant `MIN_RECORDING_FRAMES` (native_voice.rs line 32). -/
def MIN_RECORDING_FRAMES : Nat := 30

/-- Constant `SAMPLE_RATE` (native_voice.rs line 24). -/
def SAMPLE_RATE : Nat := 16000

/-- The mutable state of `NativeVoicePipeline` (its `Arc`-shared cells)
together with the audio-loop-local counters declared at the top of
`run_audio_loop` (native_voice.rs lines 203-209). -/
structure PipelineState where
  state : VoiceState
  wake_word_active : Bool
  recording_buffer : List ℚ
  recording_complete : Bool
  skip_frames_counter : Nat
  voice_detected : Bool
  vad_sensitivity : ℚ
  vad_timeout_ms : Nat
  voice_frame_count : Nat
  last_wake_emission : Nat
  silence_frame_count : Nat
  has_detected_speech : Bool
  recording_frame_count : Nat
  deriving DecidableEq

/-- Function `calculate_rms_energy` (native_voice.rs lines 778-785): `0.0` for
an empty block, otherwise the square root of the mean of the squared samples. -/
noncomputable def calculate_rms_energy (samples : List ℚ) : ℝ :=
  if samples = [] then 0
  else Real.sqrt ((((samples.map fun s => s * s).sum / (samples.length : ℚ)) : ℚ) : ℝ)

/-- The silence-frame budget computed inside the audio callback
(native_voice.rs line 246): `(timeout_ms as f32 / 32.0).round() as usize`.
Rust rounds half away from zero; the argument is nonnegative, so this agrees
with Mathlib's round-half-up on `ℚ`. -/
def silence_frames_of (timeout_ms : Nat) : Nat :=
  (round ((timeout_ms : ℚ) / 32)).toNat

/-- The wake-word threshold computed inside the audio callback
(native_voice.rs line 249): `sensitivity * 2.5`. -/
def wake_threshold_of (sensitivity : ℚ) : ℚ :=
  sensitivity * 2.5

/-- The cpal input callback built in `run_audio_loop` (native_voice.rs lines
231-352), as a transition on `PipelineState`.  The `Bool` component records
whether the `wake_word_detected` event was emitted during this block. -/
noncomputable def audioCallback (s : PipelineState) (data : List ℚ) (now : Nat) :
    PipelineState × Bool :=
  if s.wake_word_active = false then (s, false)
  else
    let sensitivity := s.vad_sensitivity
    let silence_frames := silence_frames_of s.vad_timeout_ms
    let wake_threshold := wake_threshold_of sensitivity
    let energy := calculate_rms_energy data
    match s.state with
    | VoiceState.Speaking => (s, false)
    | VoiceState.Idle => (s, false)
    | VoiceState.Transcribing =>
      if 0 < s.skip_frames_counter then
        ({ s with skip_frames_counter := s.skip_frames_counter - 1 }, false)
      else
        let frame_count := s.recording_frame_count + 1
        let s1 := { s with recording_frame_count := frame_count,
                           recording_buffer := s.recording_buffer ++ data }
        if energy > (sensitivity : ℝ) then
          ({ s1 with has_detected_speech := true, silence_frame_count := 0 }, false)
        else
          if s1.has_detected_speech = true then
            if MIN_RECORDING_FRAMES ≤ frame_count then
              let silence_count := s1.silence_frame_count + 1
              if silence_frames ≤ silence_count then
                ({ s1 with recording_complete := true,
                           has_detected_speech := false,
                           silence_frame_count := 0,
                           recording_frame_count := 0 }, false)
              else
                ({ s1 with silence_frame_count := silence_count }, false)
            else (s1, false)
          else (s1, false)
    | VoiceState.ListeningForWakeWord =>
      if energy > (wake_threshold : ℝ) then
        let count := s.voice_frame_count + 1
        if VOICE_FRAMES_REQUIRED ≤ count then
          if 3 ≤ now - s.last_wake_emission then
            ({ s with voice_detected := true,
                      last_wake_emission := now,
                      voice_frame_count := 0 }, true)
          else ({ s with voice_frame_count := count }, false)
        else ({ s with voice_frame_count := count }, false)
      else
        if energy < (sensitivity : ℝ) then
          ({ s with voice_frame_count := s.voice_frame_count - 1 }, false)
        else (s, false)

/-- Environment of `start_transcription`: whether the configured Whisper model
file exists on disk (native_voice.rs lines 404-410). -/
structure Env where
  model_exists : Bool

/-- Error message at native_voice.rs line 400. -/
def errNotActive : String := "Voice pipeline not active"

/-- Error message at native_voice.rs lines 406-409 (the source also formats
the model path and file name into the message). -/
def errModelNotFound : String := "Whisper model not found"

/-- Error message at native_voice.rs lines 421-424. -/
def errAlreadyTranscribing : String :=
  "Already transcribing - please wait for current recording to complete"

/-- Error message at native_voice.rs line 510. -/
def errNoAudioCaptured : String :=
  "No audio captured. Please check:\n1. Microphone permissions\n2. Microphone is connected and working\n3. Correct input device is selected"

/-- One invocation of the audio callback: the samples of the block and the
debounce clock reading at that moment. -/
structure CallbackBlock where
  data : List ℚ
  now : Nat

/-- Folding the audio callback over a list of incoming blocks. -/
noncomputable def runCallbacks (s : PipelineState) (blocks : List CallbackBlock) :
    PipelineState :=
  blocks.foldl (fun st b => (audioCallback st b.data b.now).1) s

/-- The state transition into `Transcribing` followed by the recording reset of
`start_transcription` (native_voice.rs lines 427-444): clear the buffer, clear
the `recording_complete` and `voice_detected` flags, and arm the skip
countdown.  Note that the audio-loop-local counters (`silence_frame_count`,
`has_detected_speech`, `recording_frame_count`) are not touched here: the
control thread has no access to them. -/
def armSession (s : PipelineState) : PipelineState :=
  { s with state := VoiceState.Transcribing,
           recording_buffer := [],
           recording_complete := false,
           voice_detected := false,
           skip_frames_counter := SKIP_FRAMES_AFTER_WAKE_WORD }

/-- The cleanup block of `start_transcription` (native_voice.rs lines 502-508
and 538-544): clear the buffer, the two flags and the skip countdown. -/
def cleanupSession (s : PipelineState) : PipelineState :=
  { s with recording_buffer := [],
           recording_complete := false,
           voice_detected := false,
           skip_frames_counter := 0 }

/-- The state reached by `start_transcription` after its polling wait loop and
the unconditional transition back to `ListeningForWakeWord` (native_voice.rs
lines 454-483): the armed session, transformed by the blocks the audio thread
processed meanwhile, with the state forced back to `ListeningForWakeWord`. -/
noncomputable def sessionAfterWait (blocks : List CallbackBlock) (s : PipelineState) :
    PipelineState :=
  { runCallbacks (armSession s) blocks with state := VoiceState.ListeningForWakeWord }

/-- Method `start_transcription` (native_voice.rs lines 396-550).  `whisper` is
the oracle for `transcribe_with_whisper` (the external model decode, including
its "No speech detected in audio" failure); `blocks` are the audio blocks the
callback processes while the control thread waits. -/
noncomputable def start_transcription (env : Env)
    (whisper : List ℚ → Except String String)
    (blocks : List CallbackBlock) (s : PipelineState) :
    PipelineState × Except String String :=
  if s.wake_word_active = false then (s, Except.error errNotActive)
  else if env.model_exists = false then (s, Except.error errModelNotFound)
  else if s.state = VoiceState.Transcribing then (s, Except.error errAlreadyTranscribing)
  else
    let s4 := sessionAfterWait blocks s
    if s4.recording_buffer = [] then
      (cleanupSession s4, Except.error errNoAudioCaptured)
    else
      (cleanupSession s4, whisper s4.recording_buffer)

/-- Method `update_vad_settings` (native_voice.rs lines 617-658). -/
def update_vad_settings (s : PipelineState) (sensitivity : ℚ) (timeout_ms : Nat) :
    PipelineState × Except String Unit :=
  if ¬ (0.001 ≤ sensitivity ∧ sensitivity ≤ 1) then
    (s, Except.error ("Invalid sensitivity: " ++ toString sensitivity ++
        ". Must be between 0.001 and 1.0"))
  else if ¬ (100 ≤ timeout_ms ∧ timeout_ms ≤ 10000) then
    (s, Except.error ("Invalid timeout: " ++ toString timeout_ms ++
        "ms. Must be between 100ms and 10000ms"))
  else
    ({ s with vad_sensitivity := sensitivity, vad_timeout_ms := timeout_ms },
     Except.ok ())

/-- Method `set_state` (native_voice.rs lines 664-675). -/
def set_state (s : PipelineState) (new_state : VoiceState) :
    PipelineState × Except String Unit :=
  ({ s with state := new_state }, Except.ok ())

/-- Method `cancel_and_reset` (native_voice.rs lines 690-723). -/
def cancel_and_reset (s : PipelineState) : PipelineState × Except String Unit :=
  ({ s with recording_complete := false,
            voice_detected := false,
            skip_frames_counter := 0,
            recording_buffer := [],
            state := VoiceState.ListeningForWakeWord }, Except.ok ())

/-- Constructor `NativeVoicePipeline::new` (native_voice.rs lines 84-109)
together with the zero initialization of the audio-loop-local counters
(native_voice.rs lines 203-209). -/
def mkPipeline (vad_sensitivity : ℚ) (vad_timeout_ms : Nat) : PipelineState :=
  { state := VoiceState.Idle
    wake_word_active := false
    recording_buffer := []
    recording_complete := false
    skip_frames_counter := 0
    voice_detected := false
    vad_sensitivity := vad_sensitivity
    vad_timeout_ms := vad_timeout_ms
    voice_frame_count := 0
    last_wake_emission := 0
    silence_frame_count := 0
    has_detected_speech := false
    recording_frame_count := 0 }

/-- Method `start` (native_voice.rs lines 117-172), restricted to its effect on
the modelled state: enter `ListeningForWakeWord` and mark the loop active. -/
def startPipeline (s : PipelineState) : PipelineState :=
  { s with state := VoiceState.ListeningForWakeWord, wake_word_active := true }

/-- Struct `SpeakerInfo` as constructed by `listen_and_transcribe`
(lib.rs lines 182-196).  Modelled from the spec: the declaration itself is
absent from the sources (lib.rs imports it from `native_voice`, where it does
not appear); field names and types follow the construction sites in lib.rs and
spec section 3 ("an optional speaker-identification result"). -/
structure SpeakerInfo where
  user_id : Option Int
  user_name : Option String
  similarity_score : ℚ
  identified : Bool
  deriving DecidableEq

/-- Struct `TranscriptionResult` as constructed by `listen_and_transcribe`
(lib.rs lines 217-222).  Modelled from the spec: the declaration itself is
absent from the sources; fields follow spec section 3 ("text, recording
duration in seconds, sample count, and an optional speaker-identification
result") and the construction site in lib.rs. -/
structure TranscriptionResult where
  text : String
  duration_seconds : ℚ
  sample_count : Nat
  speaker_info : Option SpeakerInfo
  deriving DecidableEq

/-- Outcome of the external speaker-identification collaborator, covering the
four `match` arms of `listen_and_transcribe` (lib.rs lines 176-207): a
confident match, a confident no-match, an error, or the 500 ms timeout. -/
inductive SpeakerIdOutcome where
  | identified (user_id : Int) (user_name : String)
  | noConfidentMatch
  | failed
  | timedOut

/-- The speaker-information branch of `listen_and_transcribe` (lib.rs lines
169-213): speaker identification runs only when the biometrics model is loaded
and the captured samples are nonempty. -/
def speakerInfoOf (model_loaded : Bool) (samples : List ℚ)
    (outcome : SpeakerIdOutcome) : Option SpeakerInfo :=
  if model_loaded = true ∧ samples ≠ [] then
    match outcome with
    | SpeakerIdOutcome.identified uid uname =>
        some { user_id := some uid, user_name := some uname,
               similarity_score := 0.85, identified := true }
    | SpeakerIdOutcome.noConfidentMatch =>
        some { user_id := none, user_name := none,
               similarity_score := 0, identified := false }
    | SpeakerIdOutcome.failed => none
    | SpeakerIdOutcome.timedOut => none
  else none

/-- Modelled from the spec: the variant of `start_transcription` invoked by
`listen_and_transcribe` (lib.rs line 146) returns the decoded text together
with the captured samples.  That declaration is absent from the sources — the
`native_voice.rs` under `src/` returns only the text — so, per spec section
4.5 step 6 ("copy out the accumulated buffer"), this function pairs the
successful decode with the copied-out buffer and is otherwise identical to
`start_transcription`. -/
noncomputable def start_transcription_with_samples (env : Env)
    (whisper : List ℚ → Except String String)
    (blocks : List CallbackBlock) (s : PipelineState) :
    PipelineState × Except String (String × List ℚ) :=
  if s.wake_word_active = false then (s, Except.error errNotActive)
  else if env.model_exists = false then (s, Except.error errModelNotFound)
  else if s.state = VoiceState.Transcribing then (s, Except.error errAlreadyTranscribing)
  else
    let s4 := sessionAfterWait blocks s
    if s4.recording_buffer = [] then
      (cleanupSession s4, Except.error errNoAudioCaptured)
    else
      match whisper s4.recording_buffer with
      | Except.ok text => (cleanupSession s4, Except.ok (text, s4.recording_buffer))
      | Except.error e => (cleanupSession s4, Except.error e)

/-- Tauri command `listen_and_transcribe` (lib.rs lines 131-234): run the
pipeline transcription, compute the duration and sample-count metadata from
the captured samples, attach the optional speaker information, and build the
`TranscriptionResult`. -/
noncomputable def listen_and_transcribe (env : Env)
    (whisper : List ℚ → Except String String)
    (blocks : List CallbackBlock)
    (model_loaded : Bool) (outcome : SpeakerIdOutcome)
    (s : PipelineState) : PipelineState × Except String TranscriptionResult :=
  match start_transcription_with_samples env whisper blocks s with
  | (s', Except.error e) => (s', Except.error e)
  | (s', Except.ok (text, samples)) =>
      (s', Except.ok
        { text := text,
          duration_seconds := (samples.length : ℚ) / (SAMPLE_RATE : ℚ),
          sample_count := samples.length,
          speaker_info := speakerInfoOf model_loaded samples outcome })

/-- An interleaving event for the two threads: a control-thread
`start_transcription` call (with its environment, Whisper oracle and the
blocks processed during its wait loop) or one audio-thread callback block. -/
inductive VoiceEvent where
  | call (env : Env) (whisper : List ℚ → Except String String)
      (blocks : List CallbackBlock)
  | block (data : List ℚ) (now : Nat)

/-- Effect of one event on the shared state. -/
noncomputable def stepEvent (s : PipelineState) : VoiceEvent → PipelineState
  | VoiceEvent.call env whisper blocks => (start_transcription env whisper blocks s).1
  | VoiceEvent.block data now => (audioCallback s data now).1

/-- Effect of a finite event sequence on the shared state. -/
noncomputable def runEvents (s : PipelineState) (evs : List VoiceEvent) : PipelineState :=
  evs.foldl stepEvent s

/-- The recording-session fields `start_transcription` promises to leave
cleared: empty buffer, zero skip countdown, lowered completion flag. -/
def sessionClean (s : PipelineState) : Prop :=
  s.recording_buffer = [] ∧ s.skip_frames_counter = 0 ∧ s.recording_complete = false

lemma calculate_rms_energy_nonneg (samples : List ℚ) :
    0 ≤ calculate_rms_energy samples := by
  unfold calculate_rms_energy
  split
  · exact le_refl 0
  · exact Real.sqrt_nonneg _

/-- Definition following the spec's words (section 4.4): the number of silent
blocks allowed is `round(timeout_ms / 32)`. -/
def spec_silence_frames (timeout_ms : Nat) : Nat :=
  (round ((timeout_ms : ℚ) / 32)).toNat

/-- Definition following the spec's words (section 4.3): the wake threshold is
`vad_sensitivity × 2.5`. -/
def spec_wake_threshold (sensitivity : ℚ) : ℚ :=
  sensitivity * 2.5

/-- C6: for every sensitivity and timeout value the audio callback reads, the
derived quantities match the spec formulas `silence_frames =
round(timeout_ms / 32)` and `wake_threshold = vad_sensitivity × 2.5`; in
particular a 1280 ms timeout yields 40 silence frames and sensitivity 0.02
yields wake threshold 0.05. -/
theorem vad_arithmetic :
    (∀ timeout_ms : Nat, silence_frames_of timeout_ms = spec_silence_frames timeout_ms) ∧
    (∀ sensitivity : ℚ, wake_threshold_of sensitivity = spec_wake_threshold sensitivity) ∧
    silence_frames_of 1280 = 40 ∧
    wake_threshold_of 0.02 = 0.05 := by
  refine ⟨fun t => rfl, fun q => rfl, ?_, ?_⟩
  · show (round ((1280 : ℚ) / 32)).toNat = 40
    have h1 : ((1280 : ℚ) / 32) = ((40 : Nat) : ℚ) := by norm_num
    rw [h1, round_natCast]
    rfl
  · show (0.02 : ℚ) * 2.5 = 0.05
    norm_num

/-- C7: the energy function equals the square root of the mean of the squared
samples on every non-empty block, is 0 on the empty block, is 0 on an all-zero
block, and equals `|a|` on a constant block of amplitude `a`. -/
theorem rms_energy_spec :
    (∀ samples : List ℚ, samples ≠ [] →
        calculate_rms_energy samples =
          Real.sqrt ((((samples.map fun x => x * x).sum / (samples.length : ℚ)) : ℚ) : ℝ)) ∧
    calculate_rms_energy [] = 0 ∧
    (∀ n : Nat, calculate_rms_energy (List.replicate n 0) = 0) ∧
    (∀ (n : Nat) (a : ℚ), n ≠ 0 →
        calculate_rms_energy (List.replicate n a) = |(a : ℝ)|) := by
  have hform : ∀ samples : List ℚ, samples ≠ [] →
      calculate_rms_energy samples =
        Real.sqrt ((((samples.map fun x => x * x).sum / (samples.length : ℚ)) : ℚ) : ℝ) := by
    intro samples h
    unfold calculate_rms_energy
    rw [if_neg h]
  have hconst : ∀ (n : Nat) (a : ℚ), n ≠ 0 →
      calculate_rms_energy (List.replicate n a) = |(a : ℝ)| := by
    intro n a hn
    have hne : List.replicate n a ≠ [] := by
      cases n with
      | zero => exact absurd rfl hn
      | succ m => simp
    rw [hform _ hne]
    have hn' : (n : ℚ) ≠ 0 := Nat.cast_ne_zero.mpr hn
    rw [List.map_replicate, List.sum_replicate, List.length_replicate,
        nsmul_eq_mul, mul_div_cancel_left₀ _ hn']
    push_cast
    exact Real.sqrt_mul_self_eq_abs _
  refine ⟨hform, by simp [calculate_rms_energy], ?_, hconst⟩
  intro n
  cases n with
  | zero => simp [calculate_rms_energy]
  | succ m => simpa using hconst (m + 1) 0 (Nat.succ_ne_zero m)

/-- Witness for C7 at a concrete input: a block of four samples of constant
amplitude -3 has energy `|-3|`. -/
theorem rms_energy_spec_witness :
    calculate_rms_energy (List.replicate 4 (-3)) = |((-3 : ℚ) : ℝ)| :=
  rms_energy_spec.2.2.2 4 (-3) (by decide)

/-- C9: for every prior state and buffer content, `cancel_and_reset` returns
`Ok`, forces the state to `ListeningForWakeWord`, empties the buffer, clears
the recording-complete and voice-detected flags and the skip countdown, and
leaves every other field unchanged. -/
theorem cancel_and_reset_forced_reset (s : PipelineState) :
    (cancel_and_reset s).2 = Except.ok () ∧
    (cancel_and_reset s).1.state = VoiceState.ListeningForWakeWord ∧
    (cancel_and_reset s).1.recording_buffer = [] ∧
    (cancel_and_reset s).1.recording_complete = false ∧
    (cancel_and_reset s).1.voice_detected = false ∧
    (cancel_and_reset s).1.skip_frames_counter = 0 ∧
    (cancel_and_reset s).1.wake_word_active = s.wake_word_active ∧
    (cancel_and_reset s).1.vad_sensitivity = s.vad_sensitivity ∧
    (cancel_and_reset s).1.vad_timeout_ms = s.vad_timeout_ms ∧
    (cancel_and_reset s).1.voice_frame_count = s.voice_frame_count ∧
    (cancel_and_reset s).1.last_wake_emission = s.last_wake_emission ∧
    (cancel_and_reset s).1.silence_frame_count = s.silence_frame_count ∧
    (cancel_and_reset s).1.has_detected_speech = s.has_detected_speech ∧
    (cancel_and_reset s).1.recording_frame_count = s.recording_frame_count :=
  ⟨rfl, rfl, rfl, rfl, rfl, rfl, rfl, rfl, rfl, rfl, rfl, rfl, rfl, rfl⟩

/-- C10: `set_state` performs no transition validation — for every current
state and every requested state (hence all sixteen ordered pairs) it returns
`Ok`, the state afterwards is exactly the requested one, and no other field is
touched. -/
theorem set_state_unvalidated (s : PipelineState) (new_state : VoiceState) :
    (set_state s new_state).2 = Except.ok () ∧
    (set_state s new_state).1.state = new_state ∧
    (set_state s new_state).1.wake_word_active = s.wake_word_active ∧
    (set_state s new_state).1.recording_buffer = s.recording_buffer ∧
    (set_state s new_state).1.recording_complete = s.recording_complete ∧
    (set_state s new_state).1.skip_frames_counter = s.skip_frames_counter ∧
    (set_state s new_state).1.voice_detected = s.voice_detected ∧
    (set_state s new_state).1.vad_sensitivity = s.vad_sensitivity ∧
    (set_state s new_state).1.vad_timeout_ms = s.vad_timeout_ms ∧
    (set_state s new_state).1.voice_frame_count = s.voice_frame_count ∧
    (set_state s new_state).1.last_wake_emission = s.last_wake_emission ∧
    (set_state s new_state).1.silence_frame_count = s.silence_frame_count ∧
    (set_state s new_state).1.has_detected_speech = s.has_detected_speech ∧
    (set_state s new_state).1.recording_frame_count = s.recording_frame_count :=
  ⟨rfl, rfl, rfl, rfl, rfl, rfl, rfl, rfl, rfl, rfl, rfl, rfl, rfl, rfl⟩

/-- The leftover state after a recording that ended by the 30-second wall-clock
timeout rather than by silence detection: the orchestrator's cleanup cleared
the shared buffer, flags and skip counter and returned to
`ListeningForWakeWord`, but the audio-loop-local counters keep whatever the
last `Transcribing` block left (speech had been seen, 5 silence frames were
accumulated, 45 frames recorded) because the in-callback reset at
native_voice.rs lines 304-306 only runs when silence detection completes a
recording. -/
def timeoutLeftoverState : PipelineState :=
  { state := VoiceState.ListeningForWakeWord
    wake_word_active := true
    recording_buffer := []
    recording_complete := false
    skip_frames_counter := 0
    voice_detected := false
    vad_sensitivity := 0.02
    vad_timeout_ms := 1280
    voice_frame_count := 0
    last_wake_emission := 0
    silence_frame_count := 5
    has_detected_speech := true
    recording_frame_count := 45 }

/-- C2 (code bug): arming a new recording session in `start_transcription`
resets the buffer, the recording-complete and voice-detected flags and arms
the skip countdown to 15, but never resets the audio-loop-local
`silence_frame_count`, `has_detected_speech` and `recording_frame_count` —
they carry over from any prior session (first conjunct, and likewise for the
final cleanup, second conjunct); in the concrete state left by a
timeout-ended recording the freshly armed session therefore starts with the
has-speech flag still true and 5 stale silence frames, contradicting the
claimed full reset. -/
theorem arm_session_retains_stale_vad_counters :
    (∀ s : PipelineState,
        (armSession s).silence_frame_count = s.silence_frame_count ∧
        (armSession s).has_detected_speech = s.has_detected_speech ∧
        (armSession s).recording_frame_count = s.recording_frame_count) ∧
    (∀ s : PipelineState,
        (cleanupSession s).silence_frame_count = s.silence_frame_count ∧
        (cleanupSession s).has_detected_speech = s.has_detected_speech ∧
        (cleanupSession s).recording_frame_count = s.recording_frame_count) ∧
    (armSession timeoutLeftoverState).recording_buffer = [] ∧
    (armSession timeoutLeftoverState).recording_complete = false ∧
    (armSession timeoutLeftoverState).voice_detected = false ∧
    (armSession timeoutLeftoverState).skip_frames_counter = 15 ∧
    (armSession timeoutLeftoverState).state = VoiceState.Transcribing ∧
    (armSession timeoutLeftoverState).has_detected_speech = true ∧
    (armSession timeoutLeftoverState).silence_frame_count = 5 ∧
    (armSession timeoutLeftoverState).recording_frame_count = 45 :=
  ⟨fun _ => ⟨rfl, rfl, rfl⟩, fun _ => ⟨rfl, rfl, rfl⟩,
   rfl, rfl, rfl, rfl, rfl, rfl, rfl, rfl⟩

/-- Environment in which the configured Whisper model file exists. -/
def envReady : Env := { model_exists := true }

/-- A Whisper oracle that always decodes successfully. -/
def whisperOk : List ℚ → Except String String := fun _ => Except.ok "hello"

/-- The state reached by `stop()` followed by `set_state(Transcribing)`: the
pipeline is inactive while the state machine reads `Transcribing`. -/
def inactiveTranscribing : PipelineState :=
  { mkPipeline 0.02 1280 with state := VoiceState.Transcribing }

/-- Counterexample for C4: in a state whose current state is `Transcribing`
but whose pipeline is inactive, `start_transcription` returns the "not
active" error, not the "already transcribing" one the claim promises for
every `Transcribing` state. -/
theorem already_transcribing_guard_cex :
    inactiveTranscribing.state = VoiceState.Transcribing ∧
    (start_transcription envReady whisperOk [] inactiveTranscribing).2 =
      Except.error errNotActive ∧
    ¬ ((start_transcription envReady whisperOk [] inactiveTranscribing).2 =
        Except.error errAlreadyTranscribing) := by
  refine ⟨rfl, rfl, ?_⟩
  intro h
  rw [show (start_transcription envReady whisperOk [] inactiveTranscribing).2 =
        Except.error errNotActive from rfl] at h
  have h2 : errNotActive = errAlreadyTranscribing := by injection h
  exact absurd h2 (by decide)

/-- C4 (amended): if the current state is `Transcribing`, `start_transcription`
changes nothing and returns an error; the error is the dedicated "already
transcribing" one whenever the pipeline is active and the model file exists
(the source checks those two conditions first, each with its own error). -/
theorem already_transcribing_guard (env : Env)
    (whisper : List ℚ → Except String String)
    (blocks : List CallbackBlock) (s : PipelineState)
    (hst : s.state = VoiceState.Transcribing) :
    (start_transcription env whisper blocks s).1 = s ∧
    (∃ msg, (start_transcription env whisper blocks s).2 = Except.error msg) ∧
    (s.wake_word_active = true → env.model_exists = true →
      start_transcription env whisper blocks s =
        (s, Except.error errAlreadyTranscribing)) := by
  unfold start_transcription
  cases hw : s.wake_word_active with
  | false =>
      refine ⟨rfl, ⟨errNotActive, rfl⟩, ?_⟩
      intro hcontra _
      exact Bool.noConfusion hcontra
  | true =>
      cases hm : env.model_exists with
      | false =>
          refine ⟨rfl, ⟨errModelNotFound, rfl⟩, ?_⟩
          intro _ hcontra
          exact Bool.noConfusion hcontra
      | true =>
          rw [hst]
          exact ⟨rfl, ⟨errAlreadyTranscribing, rfl⟩, fun _ _ => rfl⟩

/-- The state reached by an active pipeline whose state machine reads
`Transcribing`. -/
def activeTranscribing : PipelineState :=
  { startPipeline (mkPipeline 0.02 1280) with state := VoiceState.Transcribing }

/-- Witness for the amended C4 at a concrete active `Transcribing` state. -/
theorem already_transcribing_guard_witness :
    (start_transcription envReady whisperOk [] activeTranscribing).1 =
      activeTranscribing ∧
    (∃ msg, (start_transcription envReady whisperOk [] activeTranscribing).2 =
        Except.error msg) ∧
    (activeTranscribing.wake_word_active = true → envReady.model_exists = true →
      start_transcription envReady whisperOk [] activeTranscribing =
        (activeTranscribing, Except.error errAlreadyTranscribing)) :=
  already_transcribing_guard envReady whisperOk [] activeTranscribing rfl

/-- C8: `update_vad_settings` returns a range error (leaving the state
untouched) whenever the sensitivity lies outside `[0.001, 1.0]` or the timeout
lies outside `[100, 10000]`, and succeeds — installing exactly the new pair —
for every pair inside both ranges. -/
theorem update_vad_settings_validation (s : PipelineState) (sensitivity : ℚ)
    (timeout_ms : Nat) :
    ((sensitivity < 0.001 ∨ 1 < sensitivity ∨ timeout_ms < 100 ∨
        10000 < timeout_ms) →
      ∃ msg, update_vad_settings s sensitivity timeout_ms =
        (s, Except.error msg)) ∧
    (0.001 ≤ sensitivity → sensitivity ≤ 1 → 100 ≤ timeout_ms →
      timeout_ms ≤ 10000 →
      update_vad_settings s sensitivity timeout_ms =
        ({ s with vad_sensitivity := sensitivity, vad_timeout_ms := timeout_ms },
         Except.ok ())) := by
  constructor
  · intro h
    unfold update_vad_settings
    by_cases hA : 0.001 ≤ sensitivity ∧ sensitivity ≤ 1
    · have hB : ¬ (100 ≤ timeout_ms ∧ timeout_ms ≤ 10000) := by
        rcases h with h | h | h | h
        · exact absurd hA.1 (not_le.mpr h)
        · exact absurd hA.2 (not_le.mpr h)
        · exact fun hb => absurd hb.1 (not_le.mpr h)
        · exact fun hb => absurd hb.2 (not_le.mpr h)
      rw [if_neg (not_not_intro hA), if_pos hB]
      exact ⟨_, rfl⟩
    · rw [if_pos hA]
      exact ⟨_, rfl⟩
  · intro h1 h2 h3 h4
    unfold update_vad_settings
    rw [if_neg (not_not_intro ⟨h1, h2⟩), if_neg (not_not_intro ⟨h3, h4⟩)]

/-- Witness for C8: `(0.0005, 500)` and `(0.02, 50)` are rejected with the
state untouched, while `(0.02, 1280)` succeeds and installs the pair. -/
theorem update_vad_settings_validation_witness :
    (∃ msg, update_vad_settings (mkPipeline 0.02 1280) 0.0005 500 =
        (mkPipeline 0.02 1280, Except.error msg)) ∧
    (∃ msg, update_vad_settings (mkPipeline 0.02 1280) 0.02 50 =
        (mkPipeline 0.02 1280, Except.error msg)) ∧
    update_vad_settings (mkPipeline 0.02 1280) 0.02 1280 =
      ({ mkPipeline 0.02 1280 with
            vad_sensitivity := 0.02, vad_timeout_ms := 1280 }, Except.ok ()) :=
  ⟨(update_vad_settings_validation _ _ _).1 (Or.inl (by norm_num)),
   (update_vad_settings_validation _ _ _).1
     (Or.inr (Or.inr (Or.inl (by norm_num)))),
   (update_vad_settings_validation _ _ _).2 (by norm_num) (by norm_num)
     (by norm_num) (by norm_num)⟩

/-- C3: every `listen_and_transcribe` call returns the pipeline post-state
together with, on success, the single `TranscriptionResult` built from the
decoded text, the duration `sample_count / 16000` seconds, the sample count,
and the optional speaker-identification outcome; errors pass through
unchanged. -/
theorem listen_and_transcribe_result_shape (env : Env)
    (whisper : List ℚ → Except String String)
    (blocks : List CallbackBlock) (model_loaded : Bool)
    (outcome : SpeakerIdOutcome) (s : PipelineState) :
    listen_and_transcribe env whisper blocks model_loaded outcome s =
      ((start_transcription_with_samples env whisper blocks s).1,
       Except.map
         (fun ts : String × List ℚ =>
           { text := ts.1,
             duration_seconds := (ts.2.length : ℚ) / (SAMPLE_RATE : ℚ),
             sample_count := ts.2.length,
             speaker_info := speakerInfoOf model_loaded ts.2 outcome })
         (start_transcription_with_samples env whisper blocks s).2) := by
  unfold listen_and_transcribe
  cases hp : start_transcription_with_samples env whisper blocks s with
  | mk s' r =>
      cases r with
      | error e => simp [Except.map]
      | ok ts =>
          cases ts with
          | mk text samples => simp [Except.map]

lemma audioCallback_inactive (s : PipelineState) (data : List ℚ) (now : Nat)
    (h : s.wake_word_active = false) : audioCallback s data now = (s, false) := by
  unfold audioCallback
  rw [h, if_pos rfl]

lemma audioCallback_idle (s : PipelineState) (data : List ℚ) (now : Nat)
    (hw : s.wake_word_active = true) (hs : s.state = VoiceState.Idle) :
    audioCallback s data now = (s, false) := by
  unfold audioCallback
  rw [if_neg (by simp [hw]), hs]

lemma audioCallback_speaking (s : PipelineState) (data : List ℚ) (now : Nat)
    (hw : s.wake_word_active = true) (hs : s.state = VoiceState.Speaking) :
    audioCallback s data now = (s, false) := by
  unfold audioCallback
  rw [if_neg (by simp [hw]), hs]

lemma audioCallback_listening_eq (s : PipelineState) (data : List ℚ) (now : Nat)
    (hw : s.wake_word_active = true)
    (hs : s.state = VoiceState.ListeningForWakeWord) :
    audioCallback s data now =
      if calculate_rms_energy data > (wake_threshold_of s.vad_sensitivity : ℝ) then
        if VOICE_FRAMES_REQUIRED ≤ s.voice_frame_count + 1 then
          if 3 ≤ now - s.last_wake_emission then
            ({ s with voice_detected := true, last_wake_emission := now,
                      voice_frame_count := 0 }, true)
          else ({ s with voice_frame_count := s.voice_frame_count + 1 }, false)
        else ({ s with voice_frame_count := s.voice_frame_count + 1 }, false)
      else
        if calculate_rms_energy data < (s.vad_sensitivity : ℝ) then
          ({ s with voice_frame_count := s.voice_frame_count - 1 }, false)
        else (s, false) := by
  unfold audioCallback
  rw [if_neg (by simp [hw]), hs]

lemma audioCallback_listening_preserves (s : PipelineState) (data : List ℚ)
    (now : Nat) (hw : s.wake_word_active = true)
    (hs : s.state = VoiceState.ListeningForWakeWord) :
    (audioCallback s data now).1.recording_buffer = s.recording_buffer ∧
    (audioCallback s data now).1.skip_frames_counter = s.skip_frames_counter ∧
    (audioCallback s data now).1.recording_complete = s.recording_complete ∧
    (audioCallback s data now).1.state = s.state := by
  rw [audioCallback_listening_eq s data now hw hs]
  split_ifs <;> exact ⟨rfl, rfl, rfl, (by rw [hs])⟩

/-- C5: in `ListeningForWakeWord`, a block whose energy exceeds the wake
threshold increments the running counter, and the voice-activity notification
fires exactly when the incremented counter has reached 10 and at least 3
seconds have elapsed since the last notification — firing resets the counter
to 0; a block whose energy is below `vad_sensitivity` decrements the counter
by one (saturating at zero) instead of resetting it; a block with energy
between `vad_sensitivity` and the wake threshold leaves the counter
unchanged. -/
theorem wake_detector_counter_spec (s : PipelineState) (data : List ℚ)
    (now : Nat) (hw : s.wake_word_active = true)
    (hs : s.state = VoiceState.ListeningForWakeWord) :
    (calculate_rms_energy data > (wake_threshold_of s.vad_sensitivity : ℝ) →
      ((VOICE_FRAMES_REQUIRED ≤ s.voice_frame_count + 1 ∧
          3 ≤ now - s.last_wake_emission) →
        (audioCallback s data now).2 = true ∧
        (audioCallback s data now).1.voice_frame_count = 0) ∧
      (¬ (VOICE_FRAMES_REQUIRED ≤ s.voice_frame_count + 1 ∧
          3 ≤ now - s.last_wake_emission) →
        (audioCallback s data now).2 = false ∧
        (audioCallback s data now).1.voice_frame_count =
          s.voice_frame_count + 1)) ∧
    (calculate_rms_energy data < (s.vad_sensitivity : ℝ) →
      (audioCallback s data now).2 = false ∧
      (audioCallback s data now).1.voice_frame_count =
        s.voice_frame_count - 1) ∧
    ((s.vad_sensitivity : ℝ) ≤ calculate_rms_energy data →
      calculate_rms_energy data ≤ (wake_threshold_of s.vad_sensitivity : ℝ) →
      (audioCallback s data now).2 = false ∧
      (audioCallback s data now).1.voice_frame_count = s.voice_frame_count) := by
  have heq := audioCallback_listening_eq s data now hw hs
  refine ⟨?_, ?_, ?_⟩
  · intro hgt
    constructor
    · rintro ⟨h1, h2⟩
      rw [heq, if_pos hgt, if_pos h1, if_pos h2]
      exact ⟨rfl, rfl⟩
    · intro hneg
      by_cases h1 : VOICE_FRAMES_REQUIRED ≤ s.voice_frame_count + 1
      · have h2 : ¬ 3 ≤ now - s.last_wake_emission := fun h2 => hneg ⟨h1, h2⟩
        rw [heq, if_pos hgt, if_pos h1, if_neg h2]
        exact ⟨rfl, rfl⟩
      · rw [heq, if_pos hgt, if_neg h1]
        exact ⟨rfl, rfl⟩
  · intro hlt
    have hnn := calculate_rms_energy_nonneg data
    have hspos : (0 : ℝ) < (s.vad_sensitivity : ℝ) := lt_of_le_of_lt hnn hlt
    have hw2 : (s.vad_sensitivity : ℝ) ≤ (wake_threshold_of s.vad_sensitivity : ℝ) := by
      rw [wake_threshold_of]
      push_cast
      linarith
    have hngt : ¬ calculate_rms_energy data >
        (wake_threshold_of s.vad_sensitivity : ℝ) :=
      not_lt.mpr (le_trans (le_of_lt hlt) hw2)
    rw [heq, if_neg hngt, if_pos hlt]
    exact ⟨rfl, rfl⟩
  · intro hge hle
    have hngt : ¬ calculate_rms_energy data >
        (wake_threshold_of s.vad_sensitivity : ℝ) := not_lt.mpr hle
    have hnlt : ¬ calculate_rms_energy data < (s.vad_sensitivity : ℝ) :=
      not_lt.mpr hge
    rw [heq, if_neg hngt, if_neg hnlt]
    exact ⟨rfl, rfl⟩

/-- Witness for C5 at a concrete input: in the freshly started pipeline a
silent (empty) block raises no notification and leaves the saturating counter
at zero. -/
theorem wake_detector_counter_spec_witness :
    (audioCallback (startPipeline (mkPipeline 0.02 1280)) [] 0).2 = false ∧
    (audioCallback (startPipeline (mkPipeline 0.02 1280)) [] 0).1.voice_frame_count = 0 := by
  have h := wake_detector_counter_spec (startPipeline (mkPipeline 0.02 1280))
    [] 0 rfl rfl
  have he : calculate_rms_energy ([] : List ℚ) = 0 := by
    unfold calculate_rms_energy
    rw [if_pos rfl]
  have hlt : calculate_rms_energy ([] : List ℚ) <
      ((startPipeline (mkPipeline 0.02 1280)).vad_sensitivity : ℝ) := by
    rw [he]
    show (0 : ℝ) < ((0.02 : ℚ) : ℝ)
    norm_num
  have h2 := h.2.1 hlt
  exact ⟨h2.1, h2.2.trans rfl⟩

lemma start_transcription_post (env : Env)
    (whisper : List ℚ → Except String String)
    (blocks : List CallbackBlock) (s : PipelineState) :
    (start_transcription env whisper blocks s).1 = s ∨
    (start_transcription env whisper blocks s).1 =
      cleanupSession (sessionAfterWait blocks s) := by
  unfold start_transcription
  split_ifs
  · exact Or.inl rfl
  · exact Or.inl rfl
  · exact Or.inl rfl
  · right
    have hfst : ∀ (b : PipelineState) (x y : Except String String),
        (if b.recording_buffer = [] then (cleanupSession b, x)
         else (cleanupSession b, y)).1 = cleanupSession b := by
      intro b x y
      split <;> rfl
    exact hfst (sessionAfterWait blocks s) _ _

lemma stepEvent_preserves_clean (s : PipelineState)
    (hc : sessionClean s) (hs : s.state ≠ VoiceState.Transcribing)
    (ev : VoiceEvent) :
    sessionClean (stepEvent s ev) ∧
    (stepEvent s ev).state ≠ VoiceState.Transcribing := by
  cases ev with
  | call env whisper blocks =>
      rcases start_transcription_post env whisper blocks s with h | h
      · constructor
        · show sessionClean (start_transcription env whisper blocks s).1
          rw [h]; exact hc
        · show (start_transcription env whisper blocks s).1.state ≠ _
          rw [h]; exact hs
      · constructor
        · show sessionClean (start_transcription env whisper blocks s).1
          rw [h]; exact ⟨rfl, rfl, rfl⟩
        · show (start_transcription env whisper blocks s).1.state ≠ _
          rw [h]
          exact fun hcontra => VoiceState.noConfusion hcontra
  | block data now =>
      cases hwa : s.wake_word_active with
      | false =>
          have h := audioCallback_inactive s data now hwa
          constructor
          · show sessionClean (audioCallback s data now).1
            rw [h]; exact hc
          · show (audioCallback s data now).1.state ≠ _
            rw [h]; exact hs
      | true =>
          cases hst : s.state with
          | Transcribing => exact absurd hst hs
          | Idle =>
              have h := audioCallback_idle s data now hwa hst
              constructor
              · show sessionClean (audioCallback s data now).1
                rw [h]; exact hc
              · show (audioCallback s data now).1.state ≠ _
                rw [h, hst]
                exact fun hcontra => VoiceState.noConfusion hcontra
          | Speaking =>
              have h := audioCallback_speaking s data now hwa hst
              constructor
              · show sessionClean (audioCallback s data now).1
                rw [h]; exact hc
              · show (audioCallback s data now).1.state ≠ _
                rw [h, hst]
                exact fun hcontra => VoiceState.noConfusion hcontra
          | ListeningForWakeWord =>
              have h := audioCallback_listening_preserves s data now hwa hst
              constructor
              · show sessionClean (audioCallback s data now).1
                exact ⟨h.1.trans hc.1, h.2.1.trans hc.2.1, h.2.2.1.trans hc.2.2⟩
              · show (audioCallback s data now).1.state ≠ _
                rw [h.2.2.2, hst]
                exact fun hcontra => VoiceState.noConfusion hcontra

/-- C1: starting from any quiescent pipeline state (clean session fields and
a state other than `Transcribing` — in particular the state right after
`start()`), after ANY interleaving of `start_transcription` calls (successful
or failing, including the no-audio-captured error and recognition errors) and
audio-callback blocks, the recording buffer is empty, the skip-frames
countdown is 0 and the recording-complete flag is false; instantiating the
event list at each prefix ending in a call gives the property after each call
returns. -/
theorem start_transcription_sessionClean_after_any_sequence
    (s0 : PipelineState)
    (h : sessionClean s0 ∧ s0.state ≠ VoiceState.Transcribing)
    (evs : List VoiceEvent) :
    sessionClean (runEvents s0 evs) ∧
    (runEvents s0 evs).state ≠ VoiceState.Transcribing := by
  induction evs generalizing s0 with
  | nil => exact h
  | cons ev rest ih =>
      have h' := stepEvent_preserves_clean s0 h.1 h.2 ev
      have hfold : runEvents s0 (ev :: rest) = runEvents (stepEvent s0 ev) rest := rfl
      rw [hfold]
      exact ih (stepEvent s0 ev) h'

/-- Witness for C1: a freshly started pipeline, one full `start_transcription`
call followed by one audio block. -/
theorem start_transcription_sessionClean_after_any_sequence_witness :
    sessionClean (runEvents (startPipeline (mkPipeline 0.02 1280))
        [VoiceEvent.call envReady whisperOk [], VoiceEvent.block [] 0]) ∧
    (runEvents (startPipeline (mkPipeline 0.02 1280))
        [VoiceEvent.call envReady whisperOk [], VoiceEvent.block [] 0]).state ≠
      VoiceState.Transcribing :=
  start_transcription_sessionClean_after_any_sequence
    (startPipeline (mkPipeline 0.02 1280))
    ⟨⟨rfl, rfl, rfl⟩, fun hcontra => VoiceState.noConfusion hcontra⟩
    [VoiceEvent.call envReady whisperOk [], VoiceEvent.block [] 0]
